import Mathlib

/-!
Verification development for the libghostty-vt core: the paste-safety
predicate, the SGR attribute iterator, the OSC byte-stream parser, and the
key encoder, as exposed by `include/ghostty/vt.h` and exercised by the
example programs under `example/`.

The repository ships the C API surface (headers with documented contracts)
and example callers; the core implementations live outside the shipped
sources. Every operation below is therefore modelled from the specification
and from the contracts documented in `include/ghostty/vt.h`, with byte
slices as `List Nat` (each entry one byte value) and the C nullable
pointers as `Option`.
-/

namespace GhosttyVt

/-! ## Paste safety (spec 4.A, `ghostty_paste_is_safe`) -/

/-- The bracketed-paste end marker bytes `ESC [ 2 0 1 ~`
(0x1B 0x5B 0x32 0x30 0x31 0x7E). -/
def bracketedPasteEnd : List Nat := [0x1b, 0x5b, 0x32, 0x30, 0x31, 0x7e]

/-- Whether `needle` occurs at the very start of `l`. -/
def startsWithSeq : List Nat → List Nat → Bool
  | [], _ => true
  | _ :: _, [] => false
  | a :: as, b :: bs => a == b && startsWithSeq as bs

/-- Whether `needle` occurs contiguously anywhere inside `l` (a linear scan,
matching the no-allocation O(n) contract of the paste-safety predicate). -/
def hasSeq (needle : List Nat) : List Nat → Bool
  | [] => needle.isEmpty
  | b :: bs => startsWithSeq needle (b :: bs) || hasSeq needle bs

/-- Whether byte `x` occurs in `l`. -/
def hasByte (x : Nat) : List Nat → Bool
  | [] => false
  | b :: bs => b == x || hasByte x bs

/-- Modelled from the spec: `ghostty_paste_is_safe` (component 4.A; the
implementation is not among the shipped sources, only its caller in
`example/c-vt-paste/src/main.c`). A byte slice is safe to paste iff it
contains no LF (0x0A), no CR (0x0D), and no occurrence of the
bracketed-paste end marker `ESC [ 2 0 1 ~`. -/
def ghostty_paste_is_safe (b : List Nat) : Bool :=
  !hasByte 0x0a b && !hasByte 0x0d b && !hasSeq bracketedPasteEnd b

/-- The mathematical statement that `needle` occurs contiguously in `l`. -/
def SeqIn (needle l : List Nat) : Prop :=
  ∃ pre post, l = pre ++ needle ++ post

theorem startsWithSeq_iff (needle l : List Nat) :
    startsWithSeq needle l = true ↔ ∃ post, l = needle ++ post := by
  induction needle generalizing l with
  | nil => simp [startsWithSeq]
  | cons a as ih =>
    cases l with
    | nil => simp [startsWithSeq]
    | cons b bs =>
      simp only [startsWithSeq, Bool.and_eq_true, beq_iff_eq, ih,
        List.cons_append, List.cons.injEq]
      constructor
      · rintro ⟨rfl, post, rfl⟩
        exact ⟨post, rfl, rfl⟩
      · rintro ⟨post, rfl, rfl⟩
        exact ⟨rfl, post, rfl⟩

theorem hasSeq_iff (needle l : List Nat) :
    hasSeq needle l = true ↔ SeqIn needle l := by
  induction l with
  | nil =>
    simp only [hasSeq, List.isEmpty_iff, SeqIn]
    constructor
    · rintro rfl
      exact ⟨[], [], rfl⟩
    · rintro ⟨pre, post, h⟩
      rcases List.append_eq_nil.mp h.symm with ⟨h1, h2⟩
      exact (List.append_eq_nil.mp h1).2
  | cons b bs ih =>
    simp only [hasSeq, Bool.or_eq_true, startsWithSeq_iff, ih, SeqIn]
    constructor
    · rintro (⟨post, h⟩ | ⟨pre, post, h⟩)
      · exact ⟨[], post, by simp [h]⟩
      · exact ⟨b :: pre, post, by simp [h]⟩
    · rintro ⟨pre, post, h⟩
      cases pre with
      | nil => exact Or.inl ⟨post, by simpa using h⟩
      | cons p ps =>
        refine Or.inr ⟨ps, post, ?_⟩
        have h2 := (List.cons_eq_cons.mp (by simpa using h)).2
        simp [h2, List.append_assoc]

theorem hasByte_iff (x : Nat) (l : List Nat) : hasByte x l = true ↔ x ∈ l := by
  induction l with
  | nil => simp [hasByte]
  | cons b bs ih =>
    simp only [hasByte, Bool.or_eq_true, beq_iff_eq, ih, List.mem_cons]
    tauto

/-- C1: for every byte slice `b`, `ghostty_paste_is_safe b = true` iff `b`
contains no 0x0A byte, no 0x0D byte, and no contiguous occurrence of the
6-byte bracketed-paste end marker 1B 5B 32 30 31 7E; in particular the
empty slice is safe. -/
theorem paste_is_safe_characterization :
    (∀ b : List Nat, ghostty_paste_is_safe b = true ↔
      (0x0a ∉ b ∧ 0x0d ∉ b ∧ ¬ SeqIn bracketedPasteEnd b)) ∧
    ghostty_paste_is_safe [] = true := by
  refine ⟨fun b => ?_, by decide⟩
  simp only [ghostty_paste_is_safe, Bool.and_eq_true, Bool.not_eq_true',
    ← Bool.not_eq_true]
  rw [hasByte_iff, hasByte_iff, hasSeq_iff]
  tauto

/-! ## SGR attribute iterator (spec 4.B, `ghostty_sgr_*`) -/

/-- Separator between two adjacent SGR parameters: `;` or `:`. The C API
passes these as a char array alongside the `uint16_t` parameter array
(`ghostty_sgr_set_params`); separator `i` precedes parameter `i+1`. -/
inductive GhosttySgrSep
  | semicolon
  | colon
deriving DecidableEq

/-- Underline style carried by the SGR underline attribute, mirroring the
`GHOSTTY_SGR_UNDERLINE_*` enum of the C header. -/
inductive GhosttySgrUnderline
  | none
  | single
  | double
  | curly
  | dotted
  | dashed
deriving DecidableEq

/-- SGR style attribute, mirroring the `GHOSTTY_SGR_ATTR_*` tagged union of
the C header: reset, bold, italic, underline styles, 8/256/direct-color
foreground and background, direct-color underline, and the `unknown`
sentinel for parameters that are recognised positionally but not
representable. -/
inductive GhosttySgrAttribute
  | unset
  | bold
  | italic
  | underline (style : GhosttySgrUnderline)
  | fg8 (idx : Nat)
  | bg8 (idx : Nat)
  | fg256 (idx : Nat)
  | bg256 (idx : Nat)
  | directColorFg (r g b : Nat)
  | directColorBg (r g b : Nat)
  | underlineColor (r g b : Nat)
  | unknown
deriving DecidableEq

/-- SGR iterator state: the seated parameter and separator sequences plus
the position cursor advanced by `ghostty_sgr_next`. -/
structure GhosttySgrParser where
  params : List Nat
  seps : List GhosttySgrSep
  idx : Nat
deriving DecidableEq

/-- Modelled from the spec: `ghostty_sgr_set_params` (4.B; the
implementation is not among the shipped sources, only its caller in
`example/c-vt-sgr/src/main.c`). Seats the parameter and separator arrays
and resets the cursor. Parameters are 16-bit in the C API, so values are
reduced mod 2^16. -/
def ghostty_sgr_set_params (ps : List Nat) (ss : List GhosttySgrSep) :
    GhosttySgrParser :=
  ⟨ps.map (· % 65536), ss, 0⟩

/-- The sub-parameter mapping for colon-form underline styles
(`4:0` through `4:5`); unknown sub-values map to no underline. -/
def sgrUnderlineStyle : Nat → GhosttySgrUnderline
  | 0 => .none
  | 1 => .single
  | 2 => .double
  | 3 => .curly
  | 4 => .dotted
  | 5 => .dashed
  | _ => .none

/-- The 256-color attribute introduced by `38;5;idx`, `48;5;idx` or
`58;5;idx`. The data model carries 256-color foreground and background
only, so the underline form is the `unknown` sentinel. The index is
clamped to 0..=255. -/
def sgrExt256 (p n : Nat) : GhosttySgrAttribute :=
  if p = 38 then .fg256 (min n 255)
  else if p = 48 then .bg256 (min n 255)
  else .unknown

/-- The direct-color attribute introduced by `38;2;r;g;b`, `48;2;r;g;b` or
`58;2;r;g;b` (semicolon or ITU T.416 colon sub-parameter form). -/
def sgrExtDirect (p r g b : Nat) : GhosttySgrAttribute :=
  if p = 38 then .directColorFg r g b
  else if p = 48 then .directColorBg r g b
  else if p = 58 then .underlineColor r g b
  else .unknown

/-- Modelled from the spec: one dispatch step of the SGR iterator (4.B) on
the current parameter `p`, the parameters after it, and the separators
from the current position on. Returns the yielded attribute and how many
parameters beyond `p` the step consumed:
`0` → Unset; `1` → Bold; `3` → Italic; `4` → Underline(Single) unless the
next separator is `:`, in which case one sub-parameter selects the style;
`30..=37`/`40..=47` → 8-color FG/BG; `38`/`48`/`58` with `5;idx` →
256-color, with `2;r;g;b` → direct color, a short direct-color run
consuming what remains and yielding Unknown; anything else → Unknown. -/
def sgrStep (p : Nat) (tail : List Nat) (sepsRest : List GhosttySgrSep) :
    GhosttySgrAttribute × Nat :=
  if p = 0 then (.unset, 0)
  else if p = 1 then (.bold, 0)
  else if p = 3 then (.italic, 0)
  else if p = 4 then
    match sepsRest, tail with
    | .colon :: _, s :: _ => (.underline (sgrUnderlineStyle s), 1)
    | _, _ => (.underline .single, 0)
  else if 30 ≤ p ∧ p ≤ 37 then (.fg8 (p - 30), 0)
  else if 40 ≤ p ∧ p ≤ 47 then (.bg8 (p - 40), 0)
  else if p = 38 ∨ p = 48 ∨ p = 58 then
    match tail with
    | 5 :: n :: _ => (sgrExt256 p n, 2)
    | 2 :: r :: g :: b :: _ => (sgrExtDirect p r g b, 4)
    | 5 :: rest => (.unknown, 1 + rest.length)
    | 2 :: rest => (.unknown, 1 + rest.length)
    | _ :: _ => (.unknown, 1)
    | [] => (.unknown, 0)
  else (.unknown, 0)

/-- Modelled from the spec: `ghostty_sgr_next` (4.B; the implementation is
not among the shipped sources). Advances the position cursor and yields the
next attribute, or yields absence (leaving the state unchanged) when the
parameter sequence is exhausted. -/
def ghostty_sgr_next (st : GhosttySgrParser) :
    Option GhosttySgrAttribute × GhosttySgrParser :=
  match st.params.drop st.idx with
  | [] => (none, st)
  | p :: tail =>
    let (a, extra) := sgrStep p tail (st.seps.drop st.idx)
    (some a, { st with idx := st.idx + 1 + extra })

/-- Fuel-driven iteration of `ghostty_sgr_next` collecting every yielded
attribute; each successful step consumes at least one parameter, so
`params.length - idx` is always enough fuel. -/
def sgrRunAux : Nat → GhosttySgrParser → List GhosttySgrAttribute
  | 0, _ => []
  | fuel + 1, st =>
    match ghostty_sgr_next st with
    | (none, _) => []
    | (some a, st') => a :: sgrRunAux fuel st'

/-- All attributes logically contained in the iterator state, in yield
order. -/
def sgr_run (st : GhosttySgrParser) : List GhosttySgrAttribute :=
  sgrRunAux (st.params.length - st.idx) st

/-- The result of the `(n+1)`-th call to `ghostty_sgr_next`, with the parser
state threaded through the `n` preceding calls. -/
def sgrIterate (st : GhosttySgrParser) : Nat →
    Option GhosttySgrAttribute × GhosttySgrParser
  | 0 => ghostty_sgr_next st
  | n + 1 => sgrIterate (ghostty_sgr_next st).2 n

theorem sgr_next_none_of_exhausted (st : GhosttySgrParser)
    (h : st.params.length ≤ st.idx) : ghostty_sgr_next st = (none, st) := by
  unfold ghostty_sgr_next
  rw [List.drop_eq_nil_of_le h]

theorem sgr_next_some_sound (st : GhosttySgrParser) (a : GhosttySgrAttribute)
    (st' : GhosttySgrParser) (h : ghostty_sgr_next st = (some a, st')) :
    st'.params = st.params ∧ st'.seps = st.seps ∧ st.idx < st'.idx ∧
      st.idx < st.params.length := by
  unfold ghostty_sgr_next at h
  rcases hd : st.params.drop st.idx with _ | ⟨p, tail⟩
  · rw [hd] at h
    exact absurd (congrArg Prod.fst h) (by simp)
  · rw [hd] at h
    have hidx : st.idx < st.params.length := by
      by_contra hle
      rw [List.drop_eq_nil_of_le (Nat.le_of_not_lt hle)] at hd
      exact List.noConfusion hd
    have hst' : st' = { st with idx := st.idx + 1 + (sgrStep p tail (st.seps.drop st.idx)).2 } := by
      have := congrArg Prod.snd h
      simpa using this.symm
    subst hst'
    refine ⟨rfl, rfl, ?_, hidx⟩
    show st.idx < st.idx + 1 + _
    omega

theorem sgrRunAux_fuel_irrelevant (f1 f2 : Nat) (st : GhosttySgrParser)
    (h1 : st.params.length - st.idx ≤ f1) (h2 : st.params.length - st.idx ≤ f2) :
    sgrRunAux f1 st = sgrRunAux f2 st := by
  induction f1 generalizing f2 st with
  | zero =>
    have hz : st.params.length ≤ st.idx := by omega
    cases f2 with
    | zero => rfl
    | succ f2 =>
      simp [sgrRunAux, sgr_next_none_of_exhausted st hz]
  | succ f1 ih =>
    cases f2 with
    | zero =>
      have hz : st.params.length ≤ st.idx := by omega
      simp [sgrRunAux, sgr_next_none_of_exhausted st hz]
    | succ f2 =>
      rcases hn : ghostty_sgr_next st with ⟨oa, st'⟩
      cases oa with
      | none => simp [sgrRunAux, hn]
      | some a =>
        obtain ⟨hp, _, hlt, hin⟩ := sgr_next_some_sound st a st' hn
        have hrem : st'.params.length - st'.idx ≤ f1 := by rw [hp]; omega
        have hrem2 : st'.params.length - st'.idx ≤ f2 := by rw [hp]; omega
        simp [sgrRunAux, hn, ih f2 st' hrem hrem2]

theorem sgr_run_cons (st : GhosttySgrParser) (a : GhosttySgrAttribute)
    (st' : GhosttySgrParser) (h : ghostty_sgr_next st = (some a, st')) :
    sgr_run st = a :: sgr_run st' := by
  obtain ⟨hp, _, hlt, hin⟩ := sgr_next_some_sound st a st' h
  unfold sgr_run
  have hpos : 0 < st.params.length - st.idx := by omega
  rcases hr : st.params.length - st.idx with _ | r
  · omega
  · simp only [sgrRunAux, h]
    congr 1
    exact sgrRunAux_fuel_irrelevant r (st'.params.length - st'.idx) st'
      (by rw [hp]; omega) (le_refl _)

/-- C8: for every seated parameter sequence, `ghostty_sgr_next` yields an
attribute on exactly the first `(sgr_run …).length` calls (the number of
attributes the sequence logically contains) and yields absence on every
later call: absence, once reached, persists. -/
theorem sgr_next_exhaustion (ps : List Nat) (ss : List GhosttySgrSep) :
    ∀ n : Nat,
      (sgrIterate (ghostty_sgr_set_params ps ss) n).1.isSome = true ↔
        n < (sgr_run (ghostty_sgr_set_params ps ss)).length := by
  suffices h : ∀ (n : Nat) (st : GhosttySgrParser),
      (sgrIterate st n).1.isSome = true ↔ n < (sgr_run st).length from
    fun n => h n _
  intro n
  induction n with
  | zero =>
    intro st
    rcases hn : ghostty_sgr_next st with ⟨oa, st'⟩
    cases oa with
    | none =>
      have hex : st.params.length ≤ st.idx := by
        by_contra hlt
        unfold ghostty_sgr_next at hn
        rcases hd : st.params.drop st.idx with _ | ⟨p, tail⟩
        · rw [List.drop_eq_nil_iff] at hd
          omega
        · rw [hd] at hn
          exact absurd (congrArg Prod.fst hn) (by simp)
      have : sgr_run st = [] := by
        unfold sgr_run
        have : st.params.length - st.idx = 0 := by omega
        rw [this]
        rfl
      simp [sgrIterate, hn, this]
    | some a =>
      rw [sgr_run_cons st a st' hn]
      simp [sgrIterate, hn]
  | succ m ih =>
    intro st
    rcases hn : ghostty_sgr_next st with ⟨oa, st'⟩
    cases oa with
    | none =>
      have hst : st' = st := by
        unfold ghostty_sgr_next at hn
        rcases hd : st.params.drop st.idx with _ | ⟨p, tail⟩
        · rw [hd] at hn
          simpa using (congrArg Prod.snd hn).symm
        · rw [hd] at hn
          exact absurd (congrArg Prod.fst hn) (by simp)
      have hex : st.params.length ≤ st.idx := by
        by_contra hlt
        unfold ghostty_sgr_next at hn
        rcases hd : st.params.drop st.idx with _ | ⟨p, tail⟩
        · rw [List.drop_eq_nil_iff] at hd
          omega
        · rw [hd] at hn
          exact absurd (congrArg Prod.fst hn) (by simp)
      have hrun : sgr_run st = [] := by
        unfold sgr_run
        have : st.params.length - st.idx = 0 := by omega
        rw [this]
        rfl
      have : sgrIterate st (m + 1) = sgrIterate st m := by
        simp [sgrIterate, hn, hst]
      rw [this, ih st, hrun]
      simp
    | some a =>
      rw [sgr_run_cons st a st' hn]
      have : sgrIterate st (m + 1) = sgrIterate st' m := by
        simp [sgrIterate, hn]
      rw [this, ih st']
      simp only [List.length_cons]
      omega

/-- The Kakoune SGR parameter sequence of the `c-vt-sgr` example:
`ESC [ 4:3 ; 38;2;51;51;51 ; 48;2;170;170;170 ; 58;2;255;97;136 m`. -/
def kakouneParams : List Nat :=
  [4, 3, 38, 2, 51, 51, 51, 48, 2, 170, 170, 170, 58, 2, 255, 97, 136]

/-- The separators of the Kakoune sequence: `:` between the first two
parameters, `;` everywhere else (16 separators for 17 parameters). -/
def kakouneSeps : List GhosttySgrSep :=
  GhosttySgrSep.colon :: List.replicate 15 GhosttySgrSep.semicolon

/-- C4: iterating `ghostty_sgr_next` over the Kakoune parameter sequence
`[4,3,38,2,51,51,51,48,2,170,170,170,58,2,255,97,136]` whose first
separator is `:` and whose remaining separators are `;` yields exactly
Underline(Curly), direct-color foreground (51,51,51), direct-color
background (170,170,170), direct-color underline (255,97,136), in this
order, and the fifth call reports exhaustion. -/
theorem sgr_kakoune_sequence :
    sgr_run (ghostty_sgr_set_params kakouneParams kakouneSeps) =
      [.underline .curly, .directColorFg 51 51 51,
        .directColorBg 170 170 170, .underlineColor 255 97 136] ∧
    (sgrIterate (ghostty_sgr_set_params kakouneParams kakouneSeps) 4).1 =
      none := by
  refine ⟨by decide, by decide⟩

/-! ## OSC byte-stream parser (spec 4.C, `ghostty_osc_*`) -/

/-- OSC command tags, mirroring the `GHOSTTY_OSC_COMMAND_*` enum of the C
header (values 0 through 20). -/
inductive GhosttyOscCommandType
  | invalid
  | changeWindowTitle
  | changeWindowIcon
  | promptStart
  | promptEnd
  | endOfInput
  | endOfCommand
  | clipboardContents
  | reportPwd
  | mouseShape
  | colorOperation
  | kittyColorProtocol
  | showDesktopNotification
  | hyperlinkStart
  | hyperlinkEnd
  | conemuSleep
  | conemuShowMessageBox
  | conemuChangeTabTitle
  | conemuProgressReport
  | conemuWaitInput
  | conemuGuiMacroCmd
deriving DecidableEq

/-- The integer value of each command tag in the C enum
(`GHOSTTY_OSC_COMMAND_INVALID = 0` through
`GHOSTTY_OSC_COMMAND_CONEMU_GUIMACRO = 20`). -/
def oscCommandTypeCode : GhosttyOscCommandType → Nat
  | .invalid => 0
  | .changeWindowTitle => 1
  | .changeWindowIcon => 2
  | .promptStart => 3
  | .promptEnd => 4
  | .endOfInput => 5
  | .endOfCommand => 6
  | .clipboardContents => 7
  | .reportPwd => 8
  | .mouseShape => 9
  | .colorOperation => 10
  | .kittyColorProtocol => 11
  | .showDesktopNotification => 12
  | .hyperlinkStart => 13
  | .hyperlinkEnd => 14
  | .conemuSleep => 15
  | .conemuShowMessageBox => 16
  | .conemuChangeTabTitle => 17
  | .conemuProgressReport => 18
  | .conemuWaitInput => 19
  | .conemuGuiMacroCmd => 20

/-- A finalised OSC command value: the tag together with the payload fields
the modelled command families carry. Families whose bodies are not
modelled never arise from `ghostty_osc_end` below. -/
inductive GhosttyOscCommand
  | invalid
  | changeWindowTitle (title : List Nat)
  | changeWindowIcon (icon : List Nat)
  | promptStart
  | promptEnd
  | endOfInput
  | endOfCommand
  | reportPwd (pwd : List Nat)
  | mouseShape (shape : List Nat)
  | showDesktopNotification (body : List Nat)
deriving DecidableEq

/-- The tag of a finalised command value. -/
def oscCommandTag : GhosttyOscCommand → GhosttyOscCommandType
  | .invalid => .invalid
  | .changeWindowTitle _ => .changeWindowTitle
  | .changeWindowIcon _ => .changeWindowIcon
  | .promptStart => .promptStart
  | .promptEnd => .promptEnd
  | .endOfInput => .endOfInput
  | .endOfCommand => .endOfCommand
  | .reportPwd _ => .reportPwd
  | .mouseShape _ => .mouseShape
  | .showDesktopNotification _ => .showDesktopNotification

/-- OSC parser state (spec 4.C): `empty` before any byte, `commandNumber`
while digits accumulate, `invalidCommand` once the input can no longer
match any schema, and one body state per modelled command family, each
holding its payload accumulator. -/
inductive GhosttyOscState
  | empty
  | commandNumber (n : Nat)
  | invalidCommand
  | titleBody (icon : Bool) (acc : List Nat)
  | pwdBody (acc : List Nat)
  | mouseShapeBody (acc : List Nat)
  | promptBody (acc : List Nat)
  | notificationBody (acc : List Nat)
deriving DecidableEq

/-- Modelled from the spec: the command-number dispatch table (4.C item 2)
restricted to the families whose bodies this model carries: `0`/`2` window
title, `1` window icon, `7` report-pwd, `22` mouse shape, `133` prompt
marks, `777` desktop notification. The remaining documented families
(color operations, hyperlinks, clipboard, Kitty color protocol, ConEmu)
are not modelled and dispatch to `invalidCommand`, as do all unknown
numbers. -/
def oscDispatch (n : Nat) : GhosttyOscState :=
  if n = 0 ∨ n = 2 then .titleBody false []
  else if n = 1 then .titleBody true []
  else if n = 7 then .pwdBody []
  else if n = 22 then .mouseShapeBody []
  else if n = 133 then .promptBody []
  else if n = 777 then .notificationBody []
  else .invalidCommand

/-- Modelled from the spec: `ghostty_osc_next`, one step of the streaming
byte-at-a-time state machine (4.C; the implementation is not among the
shipped sources, only its caller in `example/c-vt/src/main.c`). In the
initial states digits accumulate into the command number, saturating to
the invalid state past the 16-bit range; `;` dispatches on the accumulated
number; any other byte before `;` invalidates. Body states append payload
bytes opaquely. The invalid state consumes every byte. -/
def ghostty_osc_next (st : GhosttyOscState) (byte : Nat) : GhosttyOscState :=
  match st with
  | .empty =>
    if 48 ≤ byte ∧ byte ≤ 57 then .commandNumber (byte - 48)
    else .invalidCommand
  | .commandNumber n =>
    if 48 ≤ byte ∧ byte ≤ 57 then
      if n * 10 + (byte - 48) ≤ 65535 then .commandNumber (n * 10 + (byte - 48))
      else .invalidCommand
    else if byte = 59 then oscDispatch n
    else .invalidCommand
  | .invalidCommand => .invalidCommand
  | .titleBody icon acc => .titleBody icon (acc ++ [byte])
  | .pwdBody acc => .pwdBody (acc ++ [byte])
  | .mouseShapeBody acc => .mouseShapeBody (acc ++ [byte])
  | .promptBody acc => .promptBody (acc ++ [byte])
  | .notificationBody acc => .notificationBody (acc ++ [byte])

/-- Feeding a whole byte sequence from the initial state. -/
def oscFeedAll (bytes : List Nat) : GhosttyOscState :=
  bytes.foldl ghostty_osc_next .empty

/-- Whether the accumulated state passes validation against the schema of
its command family at `ghostty_osc_end`: title, icon, pwd, mouse-shape and
notification bodies accept any payload; a prompt-mark body is valid only
when its first byte is `A`, `B`, `C` or `D`; the empty, number-only and
invalid states validate against no schema. -/
def oscValid : GhosttyOscState → Bool
  | .titleBody _ _ => true
  | .pwdBody _ => true
  | .mouseShapeBody _ => true
  | .promptBody acc =>
    acc.head? = some 65 || acc.head? = some 66 ||
      acc.head? = some 67 || acc.head? = some 68
  | .notificationBody _ => true
  | _ => false

/-- Modelled from the spec: `ghostty_osc_end` (4.C; the implementation is
not among the shipped sources). Finalises parsing: validates the
accumulated fields against the family schema and commits them into a
command value, yielding the `invalid` command when validation fails. The
return is never absent. The terminator byte matters only to commands that
send responses; none of the modelled families do, so it is ignored. -/
def ghostty_osc_end (st : GhosttyOscState) (_terminator : Nat) :
    GhosttyOscCommand :=
  match st with
  | .titleBody false acc => .changeWindowTitle acc
  | .titleBody true acc => .changeWindowIcon acc
  | .pwdBody acc => .reportPwd acc
  | .mouseShapeBody acc => .mouseShape acc
  | .promptBody acc =>
    if acc.head? = some 65 then .promptStart
    else if acc.head? = some 66 then .promptEnd
    else if acc.head? = some 67 then .endOfInput
    else if acc.head? = some 68 then .endOfCommand
    else .invalid
  | .notificationBody acc => .showDesktopNotification acc
  | _ => .invalid

/-- Modelled from the contract documented in `include/ghostty/vt.h`:
`ghostty_osc_command_type` accepts a nullable command handle (modelled as
`Option`) and returns the command tag, or `GHOSTTY_OSC_COMMAND_INVALID`
when the handle is NULL. -/
def ghostty_osc_command_type (command : Option GhosttyOscCommand) :
    GhosttyOscCommandType :=
  match command with
  | none => .invalid
  | some c => oscCommandTag c

/-- OSC command data kinds, mirroring `GhosttyOscCommandData` in the C
header: the invalid kind (never extracts) and the window-title string. -/
inductive GhosttyOscCommandData
  | invalidData
  | changeWindowTitleStr
deriving DecidableEq

/-- Modelled from the contract documented in `include/ghostty/vt.h`:
`ghostty_osc_command_data` extracts typed data from a nullable command
handle; `some bytes` models a successful extraction (return `true` with
the out-pointer set), `none` models returning `false`. The window-title
string kind is valid only for the change-window-title command. -/
def ghostty_osc_command_data (command : Option GhosttyOscCommand)
    (data : GhosttyOscCommandData) : Option (List Nat) :=
  match command, data with
  | some (.changeWindowTitle title), .changeWindowTitleStr => some title
  | _, _ => none

/-- C3: feeding the bytes of `"0;hello"` one at a time from the initial
state and finalising with `end(0x07)` yields a command whose tag is
ChangeWindowTitle and from which the window-title data kind extracts
exactly the bytes of `"hello"`. -/
theorem osc_window_title_hello :
    ghostty_osc_command_type
        (some (ghostty_osc_end
          (oscFeedAll [48, 59, 104, 101, 108, 108, 111]) 0x07)) =
      GhosttyOscCommandType.changeWindowTitle ∧
    ghostty_osc_command_data
        (some (ghostty_osc_end
          (oscFeedAll [48, 59, 104, 101, 108, 108, 111]) 0x07))
        GhosttyOscCommandData.changeWindowTitleStr =
      some [104, 101, 108, 108, 111] := by
  exact ⟨rfl, rfl⟩

/-- C5: for every sequence of fed bytes and every terminator byte,
`ghostty_osc_end` yields a command (it is a total function into
`GhosttyOscCommand`, never an absent result), and whenever the accumulated
state validates against no command schema — unknown command numbers
included — the returned command's tag is Invalid. -/
theorem osc_end_total_invalid_on_failure :
    ∀ (bytes : List Nat) (terminator : Nat),
      oscValid (oscFeedAll bytes) = true ∨
        oscCommandTag (ghostty_osc_end (oscFeedAll bytes) terminator) =
          GhosttyOscCommandType.invalid := by
  suffices h : ∀ (st : GhosttyOscState) (t : Nat),
      oscValid st = true ∨ oscCommandTag (ghostty_osc_end st t) =
        GhosttyOscCommandType.invalid from
    fun bytes t => h (oscFeedAll bytes) t
  intro st t
  cases st with
  | promptBody acc =>
    by_cases h65 : acc.head? = some 65
    · exact Or.inl (by simp [oscValid, h65])
    · by_cases h66 : acc.head? = some 66
      · exact Or.inl (by simp [oscValid, h66])
      · by_cases h67 : acc.head? = some 67
        · exact Or.inl (by simp [oscValid, h67])
        · by_cases h68 : acc.head? = some 68
          · exact Or.inl (by simp [oscValid, h68])
          · refine Or.inr ?_
            simp [ghostty_osc_end, h65, h66, h67, h68, oscCommandTag]
  | empty => exact Or.inr rfl
  | commandNumber n => exact Or.inr rfl
  | invalidCommand => exact Or.inr rfl
  | titleBody icon acc => cases icon <;> exact Or.inl rfl
  | pwdBody acc => exact Or.inl rfl
  | mouseShapeBody acc => exact Or.inl rfl
  | notificationBody acc => exact Or.inl rfl

/-- C9: `ghostty_osc_command_type` applied to a NULL command handle returns
the Invalid command type, whose C enum value is 0; tag introspection is
total over the optional handle, agreeing with the command's tag on every
non-NULL handle. -/
theorem osc_command_type_null_total :
    ghostty_osc_command_type none = GhosttyOscCommandType.invalid ∧
    oscCommandTypeCode (ghostty_osc_command_type none) = 0 ∧
    ∀ c : GhosttyOscCommand,
      ghostty_osc_command_type (some c) = oscCommandTag c := by
  exact ⟨rfl, rfl, fun c => rfl⟩

/-! ## Key event record and key encoder (spec 3, 4.D, 4.E,
`ghostty_key_event_*` and `ghostty_key_encoder_*`) -/

/-- Result codes of the C API (`GhosttyResult`): success is 0 and
out-of-memory is -1. -/
inductive GhosttyResult
  | success
  | outOfMemory
deriving DecidableEq

/-- The integer value of each result code in the C enum. -/
def ghosttyResultCode : GhosttyResult → Int
  | .success => 0
  | .outOfMemory => -1

/-- Key event action, mirroring `GhosttyKeyAction`. -/
inductive GhosttyKeyAction
  | release
  | press
  | repeatAction
deriving DecidableEq

/-- Physical key codes: the subset of the ~170-variant `GhosttyKey` enum
that the modelled encoder distinguishes (letters, a few functional keys,
cursor keys, and the bare modifier keys); every other variant of the C
enum behaves like `unidentified`, which produces no output. -/
inductive GhosttyKey
  | unidentified
  | keyA | keyB | keyC | keyD | keyE | keyF | keyG | keyH | keyI | keyJ
  | keyK | keyL | keyM | keyN | keyO | keyP | keyQ | keyR | keyS | keyT
  | keyU | keyV | keyW | keyX | keyY | keyZ
  | enter | tab | space | backspace | escape
  | arrowUp | arrowDown | arrowLeft | arrowRight
  | home | endKey
  | controlLeft | controlRight | shiftLeft | shiftRight
  | altLeft | altRight | metaLeft | metaRight
  | capsLock | numLock
deriving DecidableEq

/-- Modifier bitmask, mirroring the `GHOSTTY_MODS_*` bits: one bit per
modifier plus a side bit per primary modifier that is only meaningful when
the base bit is set. -/
structure GhosttyMods where
  shift : Bool := false
  ctrl : Bool := false
  alt : Bool := false
  super : Bool := false
  capsLock : Bool := false
  numLock : Bool := false
  shiftSide : Bool := false
  ctrlSide : Bool := false
  altSide : Bool := false
  superSide : Bool := false
deriving DecidableEq

/-- Key event record (spec 3 and 4.E): action, physical key, modifiers,
platform-consumed modifiers, IME composing flag, associated UTF-8 bytes,
and the unshifted codepoint. -/
structure GhosttyKeyEvent where
  action : GhosttyKeyAction := .press
  key : GhosttyKey := .unidentified
  mods : GhosttyMods := {}
  consumedMods : GhosttyMods := {}
  composing : Bool := false
  utf8 : List Nat := []
  unshiftedCodepoint : Nat := 0
deriving DecidableEq

/-- A fresh key event with default values, as created by
`ghostty_key_event_new`. -/
def ghostty_key_event_new : GhosttyKeyEvent := {}

/-- macOS option-as-alt setting, mirroring `GhosttyOptionAsAlt`:
`off` = False, `on` = True, `left` = Left, `right` = Right. -/
inductive GhosttyOptionAsAlt
  | off
  | on
  | left
  | right
deriving DecidableEq

/-- Encoder configuration (spec 3 "Encoder configuration"): the seven
independently settable options. The spec fixes no defaults, so the model
takes every boolean off, empty Kitty flags, and option-as-alt off. The
field `altEscPfx` models the `alt_esc_prefix` option (DEC mode 1036). -/
structure GhosttyKeyEncoder where
  cursorKeyApplication : Bool := false
  keypadKeyApplication : Bool := false
  ignoreKeypadWithNumlock : Bool := false
  altEscPfx : Bool := false
  modifyOtherKeysState2 : Bool := false
  kittyFlags : Nat := 0
  macosOptionAsAlt : GhosttyOptionAsAlt := .off
deriving DecidableEq

/-- A fresh encoder with default options, as created by
`ghostty_key_encoder_new`. -/
def ghostty_key_encoder_new : GhosttyKeyEncoder := {}

/-- Option identifiers of `ghostty_key_encoder_setopt`, mirroring the
`GHOSTTY_KEY_ENCODER_OPT_*` enum. -/
inductive GhosttyKeyEncoderOption
  | cursorKeyApplication
  | keypadKeyApplication
  | ignoreKeypadWithNumlock
  | altEscPfx
  | modifyOtherKeysState2
  | kittyFlags
  | macosOptionAsAlt
deriving DecidableEq

/-- A typed option value passed through the `const void *value` parameter
of `ghostty_key_encoder_setopt`: a bool for the mode options, a byte
bitmask for the Kitty flags, or an option-as-alt setting. -/
inductive GhosttyKeyEncoderOptValue
  | boolVal (b : Bool)
  | flagsVal (n : Nat)
  | optionAsAltVal (o : GhosttyOptionAsAlt)
deriving DecidableEq

/-- Modelled from the contract documented in `include/ghostty/vt.h`:
`ghostty_key_encoder_setopt` sets one configuration option; a NULL value
pointer (modelled as `none`) does nothing — it does not reset the option
to its default. A value of the wrong type for the option also leaves the
configuration unchanged. -/
def ghostty_key_encoder_setopt (enc : GhosttyKeyEncoder)
    (option : GhosttyKeyEncoderOption)
    (value : Option GhosttyKeyEncoderOptValue) : GhosttyKeyEncoder :=
  match value with
  | none => enc
  | some v =>
    match option, v with
    | .cursorKeyApplication, .boolVal b => { enc with cursorKeyApplication := b }
    | .keypadKeyApplication, .boolVal b => { enc with keypadKeyApplication := b }
    | .ignoreKeypadWithNumlock, .boolVal b => { enc with ignoreKeypadWithNumlock := b }
    | .altEscPfx, .boolVal b => { enc with altEscPfx := b }
    | .modifyOtherKeysState2, .boolVal b => { enc with modifyOtherKeysState2 := b }
    | .kittyFlags, .flagsVal n => { enc with kittyFlags := n % 256 }
    | .macosOptionAsAlt, .optionAsAltVal o => { enc with macosOptionAsAlt := o }
    | _, _ => enc

/-- The alphabetic index of a letter key (A = 0 … Z = 25). -/
def letterIndex : GhosttyKey → Option Nat
  | .keyA => some 0
  | .keyB => some 1
  | .keyC => some 2
  | .keyD => some 3
  | .keyE => some 4
  | .keyF => some 5
  | .keyG => some 6
  | .keyH => some 7
  | .keyI => some 8
  | .keyJ => some 9
  | .keyK => some 10
  | .keyL => some 11
  | .keyM => some 12
  | .keyN => some 13
  | .keyO => some 14
  | .keyP => some 15
  | .keyQ => some 16
  | .keyR => some 17
  | .keyS => some 18
  | .keyT => some 19
  | .keyU => some 20
  | .keyV => some 21
  | .keyW => some 22
  | .keyX => some 23
  | .keyY => some 24
  | .keyZ => some 25
  | _ => none

/-- Whether the key is a bare modifier key, which produces no output when
pressed on its own under legacy encoding. -/
def isModifierKey : GhosttyKey → Bool
  | .controlLeft => true
  | .controlRight => true
  | .shiftLeft => true
  | .shiftRight => true
  | .altLeft => true
  | .altRight => true
  | .metaLeft => true
  | .metaRight => true
  | .capsLock => true
  | .numLock => true
  | _ => false

/-- The final character of the CSI/SS3 sequence of a cursor key
(arrows, Home, End), per the xterm tables. -/
def cursorKeyFinal : GhosttyKey → Option Nat
  | .arrowUp => some 65
  | .arrowDown => some 66
  | .arrowRight => some 67
  | .arrowLeft => some 68
  | .home => some 72
  | .endKey => some 70
  | _ => none

/-- ASCII decimal digits of `n`, via a fuel-driven division loop (the fuel
argument always exceeds the number of digits). -/
def decDigitsAux : Nat → Nat → List Nat
  | 0, _ => []
  | fuel + 1, n =>
    if n < 10 then [48 + n]
    else decDigitsAux fuel (n / 10) ++ [48 + n % 10]

/-- ASCII decimal rendering of a natural number. -/
def decBytes (n : Nat) : List Nat := decDigitsAux (n + 1) n

/-- Whether bit `i` of the Kitty flag bitmask is set
(0 disambiguate, 1 report_events, 2 report_alternates, 3 report_all,
4 report_associated). -/
def kittyFlag (flags i : Nat) : Bool := Nat.testBit flags i

/-- The Kitty modifier field value: the protocol bitmask of the active
modifiers (shift 1, alt 2, ctrl 4, super 8, caps_lock 64, num_lock 128)
plus one. -/
def kittyModValue (m : GhosttyMods) : Nat :=
  (if m.shift then 1 else 0) + (if m.alt then 2 else 0) +
    (if m.ctrl then 4 else 0) + (if m.super then 8 else 0) +
    (if m.capsLock then 64 else 0) + (if m.numLock then 128 else 0) + 1

/-- The Kitty event-type sub-parameter: 1 press, 2 repeat, 3 release. -/
def kittyEventType : GhosttyKeyAction → Nat
  | .press => 1
  | .repeatAction => 2
  | .release => 3

/-- The Kitty unicode-key-code of a key: the unshifted Latin codepoint for
printable keys, the C0-adjacent codes for Enter/Tab/Space/Backspace/Escape,
and the Kitty functional codepoints for cursor and modifier keys. -/
def kittyCodepoint : GhosttyKey → Option Nat
  | .enter => some 13
  | .tab => some 9
  | .space => some 32
  | .backspace => some 127
  | .escape => some 27
  | .arrowUp => some 57352
  | .arrowDown => some 57353
  | .arrowLeft => some 57354
  | .arrowRight => some 57355
  | .home => some 57356
  | .endKey => some 57357
  | .controlLeft => some 57442
  | .controlRight => some 57448
  | .shiftLeft => some 57441
  | .shiftRight => some 57447
  | .altLeft => some 57443
  | .altRight => some 57449
  | .metaLeft => some 57444
  | .metaRight => some 57450
  | .capsLock => some 57358
  | .numLock => some 57360
  | k => (letterIndex k).map (97 + ·)

/-- Whether any encodable modifier besides the lock modifiers is active. -/
def hasSignificantMods (m : GhosttyMods) : Bool :=
  m.shift || m.ctrl || m.alt || m.super

/-- Whether the option side of the event matches the configured
macOS option-as-alt setting (spec 4.D "macOS option handling" and the
side-bit convention of spec 9): `on` matches either side, `left`/`right`
match the side bit (0 = left, 1 = right), `off` never matches. -/
def optionSideMatches : GhosttyOptionAsAlt → Bool → Bool
  | .off, _ => false
  | .on, _ => true
  | .left, side => !side
  | .right, side => side

/-- The payload re-derived from the physical key when pre-produced option
text is suppressed: the lowercase Latin byte for letter keys. -/
def keyBaseBytes (k : GhosttyKey) : List Nat :=
  match letterIndex k with
  | some i => [97 + i]
  | none => []

/-- Modelled from the spec: the macOS option handling applied before any
encoding (4.D). When the platform produced associated text with the alt
(option) modifier down, the encoder consults `macos_option_as_alt`: if the
option side matches, alt stays active and the pre-produced text is
suppressed in favour of the payload re-derived from the physical key;
otherwise the text is preferred and alt is not treated as active. -/
def effectiveEvent (cfg : GhosttyKeyEncoder) (ev : GhosttyKeyEvent) :
    GhosttyKeyEvent :=
  if ev.mods.alt && !ev.utf8.isEmpty then
    if optionSideMatches cfg.macosOptionAsAlt ev.mods.altSide then
      { ev with utf8 := keyBaseBytes ev.key }
    else
      { ev with mods := { ev.mods with alt := false } }
  else ev

/-- Alt handling of the legacy payload (spec 4.D "Legacy encoding"): with
the alt modifier active, a nonempty payload is prefixed with ESC when
`alt_esc_prefix` is set; when unset, alt sets the 8th bit of a single-byte
payload (meta mode). -/
def legacyAltPayload (cfg : GhosttyKeyEncoder) (m : GhosttyMods)
    (payload : List Nat) : List Nat :=
  match payload with
  | [] => []
  | b :: rest =>
    if m.alt then
      if cfg.altEscPfx then 27 :: b :: rest
      else
        match rest with
        | [] => [(b + 128) % 256]
        | _ => b :: rest
    else b :: rest

/-- The xterm modifier parameter (1 + shift·1 + alt·2 + ctrl·4 + super·8)
used by the modifyOtherKeys form. -/
def legacyModValue (m : GhosttyMods) : Nat :=
  (if m.shift then 1 else 0) + (if m.alt then 2 else 0) +
    (if m.ctrl then 4 else 0) + (if m.super then 8 else 0) + 1

/-- Modelled from the spec: the legacy xterm encoding (4.D "Legacy
encoding"). Release events and bare modifier keys produce no output;
cursor keys produce `ESC [` (or `ESC O` in cursor-key application mode)
plus their final character; Control with an alphabetic key produces the
C0 byte; with modifyOtherKeys state 2, a modified printable key that is
not otherwise encoded produces `CSI 27 ; mods ; codepoint ~`; otherwise
the associated UTF-8 text is the payload, with alt prepending ESC or
setting the 8th bit. Keys outside the modelled subset produce no output,
matching the contract that unknown keys yield nothing. -/
def legacyEncode (cfg : GhosttyKeyEncoder) (ev : GhosttyKeyEvent) :
    List Nat :=
  if ev.action = .release then []
  else if ev.composing then []
  else if isModifierKey ev.key then []
  else
    match cursorKeyFinal ev.key with
    | some final =>
      (if cfg.cursorKeyApplication then [27, 79] else [27, 91]) ++ [final]
    | none =>
      match letterIndex ev.key with
      | some i =>
        if ev.mods.ctrl then legacyAltPayload cfg ev.mods [i + 1]
        else if cfg.modifyOtherKeysState2 && hasSignificantMods ev.mods then
          [27, 91] ++ decBytes 27 ++ [59] ++ decBytes (legacyModValue ev.mods)
            ++ [59] ++ decBytes (97 + i) ++ [126]
        else legacyAltPayload cfg ev.mods
          (if ev.utf8.isEmpty then [97 + i] else ev.utf8)
      | none =>
        if cfg.modifyOtherKeysState2 && hasSignificantMods ev.mods &&
            !ev.utf8.isEmpty then
          [27, 91] ++ decBytes 27 ++ [59] ++ decBytes (legacyModValue ev.mods)
            ++ [59] ++ decBytes (ev.utf8.headD 0) ++ [126]
        else legacyAltPayload cfg ev.mods ev.utf8

/-- Colon-separated decimal codepoints of the associated text, the
`report_associated` field of the Kitty form. -/
def kittyAssociatedField : List Nat → List Nat
  | [] => []
  | [c] => decBytes c
  | c :: rest => decBytes c ++ [58] ++ kittyAssociatedField rest

/-- Modelled from the spec: the Kitty keyboard protocol encoding (4.D
"Kitty encoding"), producing `CSI unicode-key-code [:alternates]
[; modifiers [:event-type]] [; associated-text] u`. Release events emit
nothing unless `report_events` is set; keys without a Kitty codepoint emit
nothing; without `report_all`, an unmodified printable key with associated
text passes the text through unencoded. -/
def kittyEncode (cfg : GhosttyKeyEncoder) (ev : GhosttyKeyEvent) :
    List Nat :=
  let fl := cfg.kittyFlags
  if ev.action = .release && !kittyFlag fl 1 then []
  else
    match kittyCodepoint ev.key with
    | none => []
    | some code =>
      if !kittyFlag fl 3 && !hasSignificantMods ev.mods &&
          !ev.utf8.isEmpty && (letterIndex ev.key).isSome then ev.utf8
      else
        let alternates :=
          if kittyFlag fl 2 && ev.unshiftedCodepoint ≠ 0 &&
              ev.unshiftedCodepoint ≠ code then
            [58] ++ decBytes ev.unshiftedCodepoint
          else []
        let modsField :=
          if kittyModValue ev.mods ≠ 1 || kittyFlag fl 1 then
            [59] ++ decBytes (kittyModValue ev.mods) ++
              (if kittyFlag fl 1 then
                [58] ++ decBytes (kittyEventType ev.action)
              else [])
          else []
        let assocField :=
          if kittyFlag fl 4 && !ev.utf8.isEmpty &&
              ev.action ≠ .release then
            [59] ++ kittyAssociatedField ev.utf8
          else []
        [27, 91] ++ decBytes code ++ alternates ++ modsField ++
          assocField ++ [117]

/-- Modelled from the spec: the pure encoding function underlying
`ghostty_key_encoder_encode` (4.D; the implementation is not among the
shipped sources, only its caller in `example/c-vt-key-encode/src/main.c`).
Applies the macOS option handling, then selects the protocol in priority
order: Kitty when any Kitty flag is set, otherwise the legacy encoding
(which subsumes the modifyOtherKeys level-2 form). -/
def ghosttyEncode (cfg : GhosttyKeyEncoder) (ev : GhosttyKeyEvent) :
    List Nat :=
  let e := effectiveEvent cfg ev
  if cfg.kittyFlags ≠ 0 then kittyEncode cfg e else legacyEncode cfg e

/-- Modelled from the contract documented in `include/ghostty/vt.h`:
`ghostty_key_encoder_encode` writes the encoded sequence into a caller
buffer, modelled by its capacity (`none` for a NULL buffer). A NULL buffer
always yields OutOfMemory with the required size in `written`; a buffer
smaller than required yields OutOfMemory with the required size; otherwise
the call succeeds and `written` is the number of bytes written. -/
def ghostty_key_encoder_encode (cfg : GhosttyKeyEncoder)
    (ev : GhosttyKeyEvent) (buffer : Option Nat) : GhosttyResult × Nat :=
  let required := (ghosttyEncode cfg ev).length
  match buffer with
  | none => (.outOfMemory, required)
  | some cap =>
    if cap < required then (.outOfMemory, required)
    else (.success, required)

/-- The `(Press, key=C, mods=Ctrl)` event of spec scenario 5, built from a
fresh key event as the examples do. -/
def ctrlCEvent : GhosttyKeyEvent :=
  { ghostty_key_event_new with
    action := .press
    key := .keyC
    mods := { ctrl := true } }

/-- C2: for every encoder configuration and key event, encoding into a NULL
buffer returns OutOfMemory with `written` equal to the required byte count
(also when that count is zero); encoding into a buffer smaller than
required returns OutOfMemory with `written` equal to the required count;
otherwise the call returns Success with `written` at most the capacity. -/
theorem key_encoder_encode_buffer_contract (cfg : GhosttyKeyEncoder)
    (ev : GhosttyKeyEvent) :
    ghostty_key_encoder_encode cfg ev none =
      (GhosttyResult.outOfMemory, (ghosttyEncode cfg ev).length) ∧
    (∀ cap : Nat, cap < (ghosttyEncode cfg ev).length →
      ghostty_key_encoder_encode cfg ev (some cap) =
        (GhosttyResult.outOfMemory, (ghosttyEncode cfg ev).length)) ∧
    (∀ cap : Nat, (ghosttyEncode cfg ev).length ≤ cap →
      (ghostty_key_encoder_encode cfg ev (some cap)).1 =
          GhosttyResult.success ∧
        (ghostty_key_encoder_encode cfg ev (some cap)).2 ≤ cap) := by
  refine ⟨rfl, fun cap h => ?_, fun cap h => ?_⟩
  · simp [ghostty_key_encoder_encode, h]
  · have hnot : ¬ cap < (ghosttyEncode cfg ev).length := Nat.not_lt.mpr h
    refine ⟨by simp [ghostty_key_encoder_encode, hnot], ?_⟩
    simpa [ghostty_key_encoder_encode, hnot] using h

/-- Witness for `key_encoder_encode_buffer_contract` at the default
configuration and the Ctrl+C press event, whose encoding needs one byte:
capacity 0 is too small and reports the required size, capacity 8
succeeds. -/
theorem key_encoder_encode_buffer_contract_witness :
    ((0 : Nat) < (ghosttyEncode ghostty_key_encoder_new ctrlCEvent).length ∧
      ghostty_key_encoder_encode ghostty_key_encoder_new ctrlCEvent
          (some 0) =
        (GhosttyResult.outOfMemory,
          (ghosttyEncode ghostty_key_encoder_new ctrlCEvent).length)) ∧
    ((ghosttyEncode ghostty_key_encoder_new ctrlCEvent).length ≤ 8 ∧
      (ghostty_key_encoder_encode ghostty_key_encoder_new ctrlCEvent
          (some 8)).1 = GhosttyResult.success) :=
  ⟨⟨by decide,
    (key_encoder_encode_buffer_contract ghostty_key_encoder_new
      ctrlCEvent).2.1 0 (by decide)⟩,
   ⟨by decide,
    ((key_encoder_encode_buffer_contract ghostty_key_encoder_new
      ctrlCEvent).2.2 8 (by decide)).1⟩⟩

/-- C6: encoding is deterministic — the byte sequence written for a given
configuration and event is the single value of the pure encoding function,
so two successful calls write identical bytes and report identical written
counts — and the `written` reported by a NULL-buffer size query equals the
`written` of any successful call with the same configuration and event. -/
theorem key_encoder_encode_deterministic_size_query
    (cfg : GhosttyKeyEncoder) (ev : GhosttyKeyEvent)
    (cap1 cap2 w1 w2 : Nat)
    (h1 : ghostty_key_encoder_encode cfg ev (some cap1) =
      (GhosttyResult.success, w1))
    (h2 : ghostty_key_encoder_encode cfg ev (some cap2) =
      (GhosttyResult.success, w2)) :
    w1 = w2 ∧ ghosttyEncode cfg ev = ghosttyEncode cfg ev ∧
      (ghostty_key_encoder_encode cfg ev none).2 = w1 := by
  have e1 : w1 = (ghosttyEncode cfg ev).length := by
    by_cases hc : cap1 < (ghosttyEncode cfg ev).length
    · simp [ghostty_key_encoder_encode, hc] at h1
    · simp [ghostty_key_encoder_encode, hc] at h1
      exact h1.symm
  have e2 : w2 = (ghosttyEncode cfg ev).length := by
    by_cases hc : cap2 < (ghosttyEncode cfg ev).length
    · simp [ghostty_key_encoder_encode, hc] at h2
    · simp [ghostty_key_encoder_encode, hc] at h2
      exact h2.symm
  refine ⟨by rw [e1, e2], rfl, ?_⟩
  rw [e1]
  rfl

/-- Witness for `key_encoder_encode_deterministic_size_query` at the
default configuration and the Ctrl+C press event, with two successful
calls of capacities 1 and 128 both writing one byte. -/
theorem key_encoder_encode_deterministic_size_query_witness :
    (1 : Nat) = 1 ∧
      ghosttyEncode ghostty_key_encoder_new ctrlCEvent =
        ghosttyEncode ghostty_key_encoder_new ctrlCEvent ∧
      (ghostty_key_encoder_encode ghostty_key_encoder_new ctrlCEvent
        none).2 = 1 :=
  key_encoder_encode_deterministic_size_query ghostty_key_encoder_new
    ctrlCEvent 1 128 1 1 (by decide) (by decide)

/-- C7: a press of the C key with the Ctrl modifier under the default
encoder configuration (all options default, Kitty flags 0) encodes through
the legacy path to exactly one byte, 0x03. -/
theorem key_encode_ctrl_c_legacy :
    ghosttyEncode ghostty_key_encoder_new ctrlCEvent = [0x03] ∧
    ghostty_key_encoder_encode ghostty_key_encoder_new ctrlCEvent
        (some 128) = (GhosttyResult.success, 1) := by
  exact ⟨rfl, rfl⟩

/-- C10: for every encoder state and option identifier, a `setopt` call
with a NULL value pointer leaves the configuration exactly unchanged — it
does not reset the option to its default — so every subsequent encode
behaves as if the call had never happened. -/
theorem key_encoder_setopt_null_noop (enc : GhosttyKeyEncoder)
    (option : GhosttyKeyEncoderOption) :
    ghostty_key_encoder_setopt enc option none = enc ∧
    ∀ (ev : GhosttyKeyEvent) (buffer : Option Nat),
      ghostty_key_encoder_encode (ghostty_key_encoder_setopt enc option none)
          ev buffer =
        ghostty_key_encoder_encode enc ev buffer :=
  ⟨rfl, fun _ _ => rfl⟩

end GhosttyVt
